import Mathlib

/-!
Shallow embedding of `controllers/grafana_controller.go` from the
grafana-operator repository: the reconciliation control loop
(`Reconcile`), the error path (`manageError`), the success path
(`manageSuccess`) and the endpoint resolver (`getGrafanaAdminUrl`),
together with the process-wide config store and the published
`ControllerState` facts.

External collaborators (the cluster API, the state reader, the action
runner, config-map discovery) are modelled as oracles: an `Env` record
supplies the result each collaborator returns during one cycle.  Side
effects (recorded warning events, issued status writes, published
controller-state facts, config-store mutations) are collected in an
explicit `CycleOutcome` record.
-/

namespace GrafanaOp

/-- Phase of a managed Grafana object (`PhaseReconciling` / `PhaseFailing`
from the api package; only these two are used by the controller file). -/
inductive Phase where
  | reconciling
  | failing
  deriving DecidableEq, Repr

/-- A map of installed dashboard references
(`map[string][]*GrafanaDashboardRef` in Go), modelled as an association
list; a Go `nil` map is `Option.none` at use sites. -/
def DashMap : Type := List (String × List String)

instance : DecidableEq DashMap := inferInstanceAs (DecidableEq (List (String × List String)))
instance : Repr DashMap := inferInstanceAs (Repr (List (String × List String)))

/-- `Grafana.Status`: phase, message and the installed-dashboards map
(`nil` map modelled as `none`). -/
structure GrafanaStatus where
  phase : Phase
  message : String
  installedDashboards : Option DashMap
  deriving DecidableEq, Repr

/-- `GrafanaSpecClient`: the `client` section of the spec
(`PreferService bool`, `TimeoutSeconds *int`). -/
structure ClientSpec where
  preferService : Bool
  timeoutSeconds : Option Int
  deriving DecidableEq, Repr

/-- `GrafanaSpecIngress` restricted to the field the controller reads:
the user-supplied `Hostname` override. -/
structure IngressSpec where
  hostname : String
  deriving DecidableEq, Repr

/-- The subset of `GrafanaSpec` the controller file reads: the optional
`client` and `ingress` sections, the dashboard label/namespace selectors
(kept abstract as optional strings) and the port configuration consumed
by `model.GetGrafanaPort`. -/
structure GrafanaSpec where
  client : Option ClientSpec
  ingress : Option IngressSpec
  dashboardLabelSelector : Option String
  dashboardNamespaceSelector : Option String
  port : Option Int
  deriving DecidableEq, Repr

/-- The managed `Grafana` object: spec plus status. -/
structure Grafana where
  spec : GrafanaSpec
  status : GrafanaStatus
  deriving DecidableEq, Repr

/-- An OpenShift route as read by the controller (`Spec.Host`). -/
structure Route where
  host : String
  deriving DecidableEq, Repr

/-- One entry of an ingress's `Status.LoadBalancer.Ingress` list:
`Hostname` and `IP`. -/
structure LoadBalancerIngress where
  hostname : String
  ip : String
  deriving DecidableEq, Repr

/-- A Kubernetes ingress as read by the controller: only its
`Status.LoadBalancer.Ingress` entry list is consumed. -/
structure KubeIngress where
  loadBalancerIngress : List LoadBalancerIngress
  deriving DecidableEq, Repr

/-- A Kubernetes service as read by the controller: `Spec.ClusterIP`
and `Name`. -/
structure KubeService where
  clusterIP : String
  name : String
  deriving DecidableEq, Repr

/-- `common.ClusterState` restricted to the fields the controller file
reads: the optional route, ingress and service. -/
structure ClusterState where
  grafanaRoute : Option Route
  grafanaIngress : Option KubeIngress
  grafanaService : Option KubeService
  deriving DecidableEq, Repr

/-- `const DefaultClientTimeoutSeconds = 5` (grafana_controller.go). -/
def DefaultClientTimeoutSeconds : Int := 5

/-- Modelled from the spec: `config.RequeueDelay` lives in the config
package, which is not part of the source under review; the spec fixes it
as "a constant, e.g. 10s".  Modelled as 10 (seconds). -/
def RequeueDelay : Nat := 10

/-- `reconcile.Result`: only the `RequeueAfter` field is used by this
controller (its zero value is 0, i.e. no requeue scheduled). -/
structure ReconcileResult where
  requeueAfter : Nat := 0
  deriving DecidableEq, Repr

/-- `common.ControllerState`, the fact published on the process-wide
channel.  Field defaults are the Go zero values, used when the literal
sets only some fields (e.g. `ControllerState{GrafanaReady: false}`). -/
structure ControllerState where
  dashboardSelectors : Option String := none
  dashboardNamespaceSelector : Option String := none
  adminUrl : String := ""
  grafanaReady : Bool := false
  clientTimeout : Int := 0
  deriving DecidableEq, Repr

/-- Modelled from the spec: the process-wide config store
(`r.config`, package `config`, not part of the source under review).
Per the spec it holds the dashboard-label-selector config item, the
"dashboards synced" flag and the cached dashboard-reference map, and
supports removal of the selector item, invalidation of all cached
dashboard state, and setting the dashboard map. -/
structure Config where
  dashboardLabelSelectorItem : Option String := none
  grafanaDashboardsSynced : Bool := false
  dashboards : Option DashMap := none
  dashboardsInvalidated : Bool := false
  deriving DecidableEq, Repr

/-- Modelled from the spec: `config.RemoveConfigItem(ConfigDashboardLabelSelector)` —
removes the object's label-selector entry from the store. -/
def Config.removeDashboardLabelSelector (c : Config) : Config :=
  { c with dashboardLabelSelectorItem := none }

/-- Modelled from the spec: `config.Cleanup(true)` — marks all cached
dashboard state invalid on teardown. -/
def Config.cleanup (c : Config) (_plusConfig : Bool) : Config :=
  { c with dashboardsInvalidated := true }

/-- Modelled from the spec: `config.InvalidateDashboards()` — marks all
cached dashboard state invalid, forcing a full resync. -/
def Config.invalidateDashboards (c : Config) : Config :=
  { c with dashboardsInvalidated := true }

/-- Modelled from the spec: `config.SetDashboards(m)` — replaces the
cached dashboard map. -/
def Config.setDashboards (c : Config) (m : DashMap) : Config :=
  { c with dashboards := some m }

/-- Modelled from the spec: `config.GetConfigBool(ConfigGrafanaDashboardsSynced, false)` —
reads the "dashboards synced" flag with a default. -/
def Config.getConfigBool (c : Config) (_dflt : Bool) : Bool :=
  c.grafanaDashboardsSynced

/-- Modelled from the spec: `model.GetGrafanaPort(cr)` (package `model`,
not part of the source under review) — "Port is derived from the
object's spec via a pure lookup (default port when unset)". -/
def GetGrafanaPort (cr : Grafana) : Int :=
  match cr.spec.port with
  | some p => p
  | none => 3000

/-- Error classification for `client.Get`: `errors.IsNotFound` versus
any other error. -/
inductive GetErr where
  | notFound
  | other (msg : String)
  deriving DecidableEq, Repr

/-- Error classification for `client.Status().Update`:
`errors.IsConflict` versus any other error. -/
inductive UpdateErr where
  | conflict
  | other (msg : String)
  deriving DecidableEq, Repr

/-- The error string carried by a failed status update, as handed to
`manageError` by `manageSuccess`. -/
def UpdateErr.message : UpdateErr → String
  | .conflict => "conflict"
  | .other m => m

/-- Oracle results of the external collaborators for one reconciliation
cycle: the initial fetch, the state read, the action run, config-map
discovery, and the re-fetch / status-update calls made inside
`manageSuccess` and `manageError`. -/
structure Env where
  getResult : Except GetErr Grafana
  readStateResult : Except String ClusterState
  runAllResult : Option String
  configMapsResult : Option String
  successRefetch : Except String Grafana
  successUpdateResult : Option UpdateErr
  errorRefetch : Except String Grafana
  errorUpdateResult : Option UpdateErr
  deriving Repr

/-- Side effects observed during a cycle: recorded warning events,
status writes issued via `client.Status().Update` (paired with whether
the write succeeded), and published `ControllerState` facts, each in
program order. -/
structure EffLog where
  warningEvents : List String := []
  statusWrites : List (GrafanaStatus × Bool) := []
  published : List ControllerState := []
  deriving DecidableEq, Repr

/-- Result of one reconciliation cycle (or of one of its sub-paths):
the `(reconcile.Result, error)` pair returned to the scheduler, the
config store after the cycle, the effect log, and the persisted status
as last observed (none when the cycle never learned it). -/
structure CycleOutcome where
  result : ReconcileResult
  err : Option String
  config : Config
  log : EffLog
  persistedStatus : Option GrafanaStatus
  deriving DecidableEq, Repr

/-- `getGrafanaAdminUrl` (grafana_controller.go:152-194): tiered
endpoint resolution — route (unless `preferService`), then ingress
(hostname override, else first load-balancer entry), then service
(cluster IP unless empty or "None", else service name), else error. -/
def getGrafanaAdminUrl (cr : Grafana) (state : ClusterState) : Except String String :=
  let preferService :=
    match cr.spec.client with
    | some client => client.preferService
    | none => false
  match state.grafanaRoute, preferService with
  | some route, false => Except.ok ("https://" ++ route.host)
  | _, _ =>
    let ingressTier : Option String :=
      match state.grafanaIngress, preferService with
      | some ingress, false =>
        match cr.spec.ingress with
        | some ingSpec =>
          if ingSpec.hostname ≠ "" then
            some ("https://" ++ ingSpec.hostname)
          else
            match ingress.loadBalancerIngress with
            | [] => none
            | entry :: _ =>
              if entry.hostname ≠ "" then some ("https://" ++ entry.hostname)
              else some ("https://" ++ entry.ip)
        | none =>
          match ingress.loadBalancerIngress with
          | [] => none
          | entry :: _ =>
            if entry.hostname ≠ "" then some ("https://" ++ entry.hostname)
            else some ("https://" ++ entry.ip)
      | _, _ => none
    match ingressTier with
    | some url => Except.ok url
    | none =>
      let servicePort := GetGrafanaPort cr
      match state.grafanaService with
      | some service =>
        if service.clusterIP ≠ "" ∧ service.clusterIP ≠ "None" then
          Except.ok ("http://" ++ service.clusterIP ++ ":" ++ toString servicePort)
        else
          Except.ok ("http://" ++ service.name ++ ":" ++ toString servicePort)
      | none => Except.error "failed to find admin url"

/-- `manageError` (grafana_controller.go:120-149): record a warning
event, set phase `Failing` with the issue's message on the working copy,
re-fetch the persisted object (failure propagates the raw error),
issue a status update when the statuses differ by `reflect.DeepEqual`
(a conflict is swallowed — `err = nil` — but the function still returns
the zero `reconcile.Result`; any other update error propagates),
otherwise invalidate cached dashboards, publish
`ControllerState{GrafanaReady: false}` and return the fixed requeue
delay with nil error. -/
def manageError (cfg : Config) (cr : Grafana) (issue : String) (env : Env) : CycleOutcome :=
  let cr : Grafana :=
    { cr with status := { cr.status with phase := Phase.failing, message := issue } }
  match env.errorRefetch with
  | .error e =>
    { result := {}, err := some e, config := cfg,
      log := { warningEvents := [issue] }, persistedStatus := none }
  | .ok instnce =>
    let proceed : List (GrafanaStatus × Bool) → GrafanaStatus → CycleOutcome :=
      fun writes persisted =>
        { result := { requeueAfter := RequeueDelay }, err := none,
          config := cfg.invalidateDashboards,
          log := { warningEvents := [issue], statusWrites := writes,
                   published := [{ grafanaReady := false }] },
          persistedStatus := some persisted }
    if cr.status ≠ instnce.status then
      match env.errorUpdateResult with
      | some UpdateErr.conflict =>
        { result := {}, err := none, config := cfg,
          log := { warningEvents := [issue], statusWrites := [(cr.status, false)] },
          persistedStatus := some instnce.status }
      | some (UpdateErr.other m) =>
        { result := {}, err := some m, config := cfg,
          log := { warningEvents := [issue], statusWrites := [(cr.status, false)] },
          persistedStatus := some instnce.status }
      | none => proceed [(cr.status, true)] cr.status
    else
      proceed [] instnce.status

/-- Prefixes the effects of an earlier partial cycle onto the outcome of
a nested `manageError` call (effects happen in program order). -/
def CycleOutcome.withPriorLog (o : CycleOutcome) (prior : EffLog) : CycleOutcome :=
  { o with log := { warningEvents := prior.warningEvents ++ o.log.warningEvents,
                    statusWrites := prior.statusWrites ++ o.log.statusWrites,
                    published := prior.published ++ o.log.published } }

/-- `manageSuccess` (grafana_controller.go:196-250): set phase
`Reconciling` / message "success" on the working copy; copy the synced
dashboard map into status when the config store reports dashboards
synced, otherwise initialise the store's map if it is nil; re-fetch the
persisted object (failure goes to `manageError`); issue a status update
when the statuses differ (failure goes to `manageError`); resolve the
admin URL (failure goes to `manageError`); publish the ready
`ControllerState` with the effective client timeout (a supplied negative
`TimeoutSeconds` is clamped to the default); return the fixed requeue
delay with nil error. -/
def manageSuccess (cfg : Config) (cr : Grafana) (state : ClusterState) (env : Env) :
    CycleOutcome :=
  let cr : Grafana :=
    { cr with status := { cr.status with phase := Phase.reconciling, message := "success" } }
  let (cfg, cr) :=
    if cfg.getConfigBool false then
      (cfg, { cr with status := { cr.status with installedDashboards := cfg.dashboards } })
    else
      match cfg.dashboards with
      | none => (cfg.setDashboards [], cr)
      | some _ => (cfg, cr)
  match env.successRefetch with
  | .error e => manageError cfg cr e env
  | .ok instnce =>
    let afterStatus : List (GrafanaStatus × Bool) → GrafanaStatus → CycleOutcome :=
      fun writes persisted =>
        match getGrafanaAdminUrl cr state with
        | .error e =>
          (manageError cfg cr e env).withPriorLog { statusWrites := writes }
        | .ok url =>
          let controllerState : ControllerState :=
            { dashboardSelectors := cr.spec.dashboardLabelSelector,
              dashboardNamespaceSelector := cr.spec.dashboardNamespaceSelector,
              adminUrl := url,
              grafanaReady := true,
              clientTimeout := DefaultClientTimeoutSeconds }
          let controllerState :=
            match cr.spec.client with
            | some client =>
              match client.timeoutSeconds with
              | some seconds =>
                { controllerState with
                  clientTimeout :=
                    if seconds < 0 then DefaultClientTimeoutSeconds else seconds }
              | none => controllerState
            | none => controllerState
          { result := { requeueAfter := RequeueDelay }, err := none, config := cfg,
            log := { statusWrites := writes, published := [controllerState] },
            persistedStatus := some persisted }
    if cr.status ≠ instnce.status then
      match env.successUpdateResult with
      | some ue =>
        (manageError cfg cr ue.message env).withPriorLog
          { statusWrites := [(cr.status, false)] }
      | none => afterStatus [(cr.status, true)] cr.status
    else
      afterStatus [] instnce.status

/-- `Reconcile` (grafana_controller.go:73-119): fetch the object — on
not-found, tear down (remove the label-selector config item, clean up
cached dashboard state, publish `ControllerState{GrafanaReady: false}`)
and return the zero result with nil error; on any other fetch error,
return it raw.  Otherwise deep-copy the object, read the cluster state,
run the computed actions, run config-map discovery — any failure goes to
`manageError` — and finish with `manageSuccess`. -/
def Reconcile (cfg : Config) (env : Env) : CycleOutcome :=
  match env.getResult with
  | .error GetErr.notFound =>
    let cfg := (cfg.removeDashboardLabelSelector).cleanup true
    { result := {}, err := none, config := cfg,
      log := { published := [{ grafanaReady := false }] }, persistedStatus := none }
  | .error (GetErr.other e) =>
    { result := {}, err := some e, config := cfg, log := {}, persistedStatus := none }
  | .ok instnce =>
    let cr := instnce
    match env.readStateResult with
    | .error e => manageError cfg cr e env
    | .ok currentState =>
      match env.runAllResult with
      | some e => manageError cfg cr e env
      | none =>
        match env.configMapsResult with
        | some e => manageError cfg cr e env
        | none => manageSuccess cfg cr currentState env

/-- The status-update discipline shared by `manageError`
(grafana_controller.go:125-140) and `manageSuccess`
(grafana_controller.go:210-221): given the freshly re-fetched persisted
status and the working copy's intended status, issue a write exactly
when they differ under full structural equality
(`reflect.DeepEqual`).  Returns whether a write was issued and the
persisted status after a successful write. -/
def applyStatus (intended persisted : GrafanaStatus) : Bool × GrafanaStatus :=
  if intended ≠ persisted then (true, intended) else (false, persisted)

/-! ### Helper lemmas -/

theorem ne_empty_of_length_pos (s : String) (h : 0 < s.length) : s ≠ "" := by
  intro he
  rw [he] at h
  exact absurd h (by decide)

theorem length_append_pos (p s : String) (h : 0 < p.length) : 0 < (p ++ s).length := by
  rw [String.length_append]
  omega

/-- When a route is present and `preferService` is effectively false,
resolution takes the route tier. -/
theorem getGrafanaAdminUrl_route (cr : Grafana) (state : ClusterState) (route : Route)
    (hroute : state.grafanaRoute = some route)
    (hps : ∀ c, cr.spec.client = some c → c.preferService = false) :
    getGrafanaAdminUrl cr state = Except.ok ("https://" ++ route.host) := by
  cases hc : cr.spec.client with
  | none => simp [getGrafanaAdminUrl, hroute, hc]
  | some c => simp [getGrafanaAdminUrl, hroute, hc, hps c hc]

/-- When no route, ingress or service is present, resolution fails. -/
theorem getGrafanaAdminUrl_nothing (cr : Grafana) (state : ClusterState)
    (hroute : state.grafanaRoute = none) (hing : state.grafanaIngress = none)
    (hsvc : state.grafanaService = none) :
    getGrafanaAdminUrl cr state = Except.error "failed to find admin url" := by
  have hps : (match cr.spec.client with
      | some client => client.preferService
      | none => false) = true ∨
      (match cr.spec.client with
      | some client => client.preferService
      | none => false) = false := by
    cases (match cr.spec.client with
      | some client => client.preferService
      | none => false) <;> simp
  rcases hps with h | h <;> simp [getGrafanaAdminUrl, hroute, hing, hsvc, h]

/-! ### Shared concrete fixtures for witnesses and counterexamples -/

/-- A previously persisted status. -/
def exStatus : GrafanaStatus :=
  { phase := Phase.reconciling, message := "old", installedDashboards := none }

/-- A plain spec: no client section, no ingress section. -/
def exSpec : GrafanaSpec :=
  { client := none, ingress := none, dashboardLabelSelector := some "app=grafana",
    dashboardNamespaceSelector := none, port := none }

/-- A plain managed object. -/
def exGrafana : Grafana := { spec := exSpec, status := exStatus }

/-- A cluster state exposing only a route. -/
def exStateRoute : ClusterState :=
  { grafanaRoute := some { host := "grafana.example.com" },
    grafanaIngress := none, grafanaService := none }

/-- A cluster state with no network surface at all. -/
def exStateEmpty : ClusterState :=
  { grafanaRoute := none, grafanaIngress := none, grafanaService := none }

/-- A baseline oracle environment where every collaborator succeeds. -/
def exEnv : Env :=
  { getResult := .ok exGrafana,
    readStateResult := .ok exStateRoute,
    runAllResult := none,
    configMapsResult := none,
    successRefetch := .ok exGrafana,
    successUpdateResult := none,
    errorRefetch := .ok exGrafana,
    errorUpdateResult := none }

/-! ### Claim theorems -/

/-- **C4**: endpoint resolution follows a strict priority order: whenever
a route is present and `preferService` is false (either no client section
or one with the flag unset), `Resolve` returns the route-derived URL
`https://<route.host>` regardless of any ingress or service also present;
and whenever `preferService` is true, the route and ingress tiers are
skipped and the service-derived URL is returned for a present service. -/
theorem C4_endpoint_priority (cr : Grafana) (state : ClusterState) :
    (∀ route, state.grafanaRoute = some route →
      (∀ c, cr.spec.client = some c → c.preferService = false) →
      getGrafanaAdminUrl cr state = Except.ok ("https://" ++ route.host)) ∧
    (∀ service client, state.grafanaService = some service →
      cr.spec.client = some client → client.preferService = true →
      getGrafanaAdminUrl cr state =
        Except.ok (if service.clusterIP ≠ "" ∧ service.clusterIP ≠ "None" then
          "http://" ++ service.clusterIP ++ ":" ++ toString (GetGrafanaPort cr)
        else
          "http://" ++ service.name ++ ":" ++ toString (GetGrafanaPort cr))) := by
  constructor
  · intro route hroute hps
    exact getGrafanaAdminUrl_route cr state route hroute hps
  · intro service client hsvc hc hpref
    cases hr : state.grafanaRoute <;>
      cases hi : state.grafanaIngress <;>
        simp [getGrafanaAdminUrl, hr, hi, hc, hpref, hsvc] <;>
          split <;> simp

/-- Closed witness for `C4_endpoint_priority` at concrete inputs. -/
theorem C4_endpoint_priority_witness :
    getGrafanaAdminUrl exGrafana exStateRoute =
      Except.ok "https://grafana.example.com" :=
  (C4_endpoint_priority exGrafana exStateRoute).1
    { host := "grafana.example.com" } rfl (fun c hc => by simp [exGrafana, exSpec] at hc)

/-- **C6**: in the ingress fallback tier (`preferService` false, no
route, ingress present, no hostname override in the spec), resolution
returns from the very first load-balancer entry examined —
`https://<hostname>` if that entry has a non-empty hostname, otherwise
`https://<ip>` of that same entry — never continuing to the arbitrary
rest of the entry list. -/
theorem C6_ingress_first_entry (cr : Grafana) (state : ClusterState)
    (ingress : KubeIngress) (entry : LoadBalancerIngress) (rest : List LoadBalancerIngress)
    (hps : ∀ c, cr.spec.client = some c → c.preferService = false)
    (hroute : state.grafanaRoute = none)
    (hing : state.grafanaIngress = some ingress)
    (hhost : ∀ i, cr.spec.ingress = some i → i.hostname = "")
    (hlb : ingress.loadBalancerIngress = entry :: rest) :
    getGrafanaAdminUrl cr state =
      (if entry.hostname ≠ "" then Except.ok ("https://" ++ entry.hostname)
       else Except.ok ("https://" ++ entry.ip)) := by
  have hps' : (match cr.spec.client with
      | some client => client.preferService
      | none => false) = false := by
    cases hc : cr.spec.client with
    | none => rfl
    | some c => exact hps c hc
  cases hi : cr.spec.ingress with
  | none =>
    by_cases hh : entry.hostname = "" <;>
      simp [getGrafanaAdminUrl, hroute, hing, hi, hps', hlb, hh]
  | some ingSpec =>
    by_cases hh : entry.hostname = "" <;>
      simp [getGrafanaAdminUrl, hroute, hing, hi, hps', hlb, hh, hhost ingSpec hi]

/-- Closed witness for `C6_ingress_first_entry`: an ingress whose first
load-balancer entry has an empty hostname and IP `10.0.0.5`, followed by
a later entry with a non-empty hostname that must be ignored. -/
theorem C6_ingress_first_entry_witness :
    getGrafanaAdminUrl exGrafana
      { grafanaRoute := none,
        grafanaIngress := some { loadBalancerIngress :=
          [{ hostname := "", ip := "10.0.0.5" },
           { hostname := "later.example.com", ip := "10.0.0.6" }] },
        grafanaService := none } = Except.ok "https://10.0.0.5" := by
  have h := C6_ingress_first_entry exGrafana
    { grafanaRoute := none,
      grafanaIngress := some { loadBalancerIngress :=
        [{ hostname := "", ip := "10.0.0.5" },
         { hostname := "later.example.com", ip := "10.0.0.6" }] },
      grafanaService := none }
    { loadBalancerIngress :=
      [{ hostname := "", ip := "10.0.0.5" },
       { hostname := "later.example.com", ip := "10.0.0.6" }] }
    { hostname := "", ip := "10.0.0.5" }
    [{ hostname := "later.example.com", ip := "10.0.0.6" }]
    (fun c hc => by simp [exGrafana, exSpec] at hc)
    rfl rfl
    (fun i hi => by simp [exGrafana, exSpec] at hi)
    rfl
  simpa using h

/-- **C7**: when no endpoint tier matches (no route, no ingress, no
service), `Resolve` fails with the "failed to find admin url" error; and
on every input, a successful resolution never returns the empty string. -/
theorem C7_no_endpoint_error :
    (∀ cr state, state.grafanaRoute = none → state.grafanaIngress = none →
      state.grafanaService = none →
      getGrafanaAdminUrl cr state = Except.error "failed to find admin url") ∧
    (∀ cr state url, getGrafanaAdminUrl cr state = Except.ok url → url ≠ "") := by
  constructor
  · intro cr state hroute hing hsvc
    exact getGrafanaAdminUrl_nothing cr state hroute hing hsvc
  · intro cr state url hok
    have h8 : (0 : Nat) < "https://".length := by decide
    have h7 : (0 : Nat) < "http://".length := by decide
    unfold getGrafanaAdminUrl at hok
    dsimp only at hok
    split at hok
    · exact Except.ok.inj hok ▸ ne_empty_of_length_pos _ (length_append_pos _ _ h8)
    · split at hok
      · rename_i url' hurl
        split at hurl
        · split at hurl
          · split at hurl
            · exact Except.ok.inj hok ▸ (Option.some.inj hurl) ▸
                ne_empty_of_length_pos _ (length_append_pos _ _ h8)
            · split at hurl
              · exact absurd hurl (by simp)
              · split at hurl
                · exact Except.ok.inj hok ▸ (Option.some.inj hurl) ▸
                    ne_empty_of_length_pos _ (length_append_pos _ _ h8)
                · exact Except.ok.inj hok ▸ (Option.some.inj hurl) ▸
                    ne_empty_of_length_pos _ (length_append_pos _ _ h8)
          · split at hurl
            · exact absurd hurl (by simp)
            · split at hurl
              · exact Except.ok.inj hok ▸ (Option.some.inj hurl) ▸
                  ne_empty_of_length_pos _ (length_append_pos _ _ h8)
              · exact Except.ok.inj hok ▸ (Option.some.inj hurl) ▸
                  ne_empty_of_length_pos _ (length_append_pos _ _ h8)
        · exact absurd hurl (by simp)
      · split at hok
        · split at hok
          · exact Except.ok.inj hok ▸ ne_empty_of_length_pos _
              (length_append_pos _ _ (length_append_pos _ _ (length_append_pos _ _ h7)))
          · exact Except.ok.inj hok ▸ ne_empty_of_length_pos _
              (length_append_pos _ _ (length_append_pos _ _ (length_append_pos _ _ h7)))
        · exact absurd hok (by simp)

/-- Closed witness for `C7_no_endpoint_error` at the empty snapshot. -/
theorem C7_no_endpoint_error_witness :
    getGrafanaAdminUrl exGrafana exStateEmpty =
      Except.error "failed to find admin url" :=
  C7_no_endpoint_error.1 exGrafana exStateEmpty rfl rfl rfl

/-- **C10**: with `preferService` false, no route, and an ingress that is
present but unusable (no hostname override and an empty load-balancer
entry list), resolution does not fail at the ingress tier: it falls
through to the service tier, returning the service-derived URL when a
service is present and failing only when the service is also absent. -/
theorem C10_unusable_ingress_falls_through (cr : Grafana) (state : ClusterState)
    (ingress : KubeIngress)
    (hps : ∀ c, cr.spec.client = some c → c.preferService = false)
    (hroute : state.grafanaRoute = none)
    (hing : state.grafanaIngress = some ingress)
    (hhost : ∀ i, cr.spec.ingress = some i → i.hostname = "")
    (hlb : ingress.loadBalancerIngress = []) :
    (∀ service, state.grafanaService = some service →
      getGrafanaAdminUrl cr state =
        Except.ok (if service.clusterIP ≠ "" ∧ service.clusterIP ≠ "None" then
          "http://" ++ service.clusterIP ++ ":" ++ toString (GetGrafanaPort cr)
        else
          "http://" ++ service.name ++ ":" ++ toString (GetGrafanaPort cr))) ∧
    (state.grafanaService = none →
      getGrafanaAdminUrl cr state = Except.error "failed to find admin url") := by
  have hps' : (match cr.spec.client with
      | some client => client.preferService
      | none => false) = false := by
    cases hc : cr.spec.client with
    | none => rfl
    | some c => exact hps c hc
  constructor
  · intro service hsvc
    cases hi : cr.spec.ingress with
    | none =>
      simp [getGrafanaAdminUrl, hroute, hing, hi, hps', hlb, hsvc]
      split <;> simp
    | some ingSpec =>
      simp [getGrafanaAdminUrl, hroute, hing, hi, hps', hlb, hsvc, hhost ingSpec hi]
      split <;> simp
  · intro hsvc
    cases hi : cr.spec.ingress with
    | none => simp [getGrafanaAdminUrl, hroute, hing, hi, hps', hlb, hsvc]
    | some ingSpec =>
      simp [getGrafanaAdminUrl, hroute, hing, hi, hps', hlb, hsvc, hhost ingSpec hi]

/-- Closed witness for `C10_unusable_ingress_falls_through`: empty
load-balancer list, service with a real cluster IP. -/
theorem C10_unusable_ingress_falls_through_witness :
    getGrafanaAdminUrl exGrafana
      { grafanaRoute := none,
        grafanaIngress := some { loadBalancerIngress := [] },
        grafanaService := some { clusterIP := "10.1.2.3", name := "grafana-service" } } =
      Except.ok "http://10.1.2.3:3000" := by
  have h := (C10_unusable_ingress_falls_through exGrafana
    { grafanaRoute := none,
      grafanaIngress := some { loadBalancerIngress := [] },
      grafanaService := some { clusterIP := "10.1.2.3", name := "grafana-service" } }
    { loadBalancerIngress := [] }
    (fun c hc => by simp [exGrafana, exSpec] at hc)
    rfl rfl
    (fun i hi => by simp [exGrafana, exSpec] at hi)
    rfl).1 { clusterIP := "10.1.2.3", name := "grafana-service" } rfl
  simpa [exGrafana, exSpec, GetGrafanaPort] using h

/-- A copy of the example object already carrying the failing status the
error path intends to write. -/
def exGrafanaFailing : Grafana :=
  { spec := exSpec,
    status := { phase := Phase.failing, message := "boom", installedDashboards := none } }

/-- An environment whose error-path re-fetch already returns the
intended failing status. -/
def exEnvErrEqual : Env := { exEnv with errorRefetch := .ok exGrafanaFailing }

/-- **C2**: the status-update discipline is idempotent: a write is
issued exactly when the intended status differs from the freshly
re-fetched persisted status under full structural equality, applying the
same intended status twice never issues a second write, and in
particular the error path issues no status write when the re-fetched
status already equals the intended failing status. -/
theorem C2_status_update_idempotent :
    (∀ intended persisted : GrafanaStatus,
      ((applyStatus intended persisted).1 = false ↔ intended = persisted) ∧
      (applyStatus intended (applyStatus intended persisted).2).1 = false) ∧
    (∀ (cfg : Config) (cr : Grafana) (issue : String) (env : Env) (inst : Grafana),
      env.errorRefetch = Except.ok inst →
      inst.status = { cr.status with phase := Phase.failing, message := issue } →
      (manageError cfg cr issue env).log.statusWrites = []) := by
  constructor
  · intro intended persisted
    by_cases h : intended = persisted <;> simp [applyStatus, h]
  · intro cfg cr issue env inst h1 h2
    simp [manageError, h1, h2]

/-- Closed witness for `C2_status_update_idempotent`: with the persisted
status already equal to the intended failing status, the error path
issues no write. -/
theorem C2_status_update_idempotent_witness :
    (manageError {} exGrafana "boom" exEnvErrEqual).log.statusWrites = [] :=
  C2_status_update_idempotent.2 {} exGrafana "boom" exEnvErrEqual exGrafanaFailing rfl rfl

/-- **C9**: the `ClientTimeout` published in the success-path
`ControllerState` fact is the default 5 when the spec supplies a
negative value or no value at all (no client section, or a client
section without `TimeoutSeconds`), and a supplied non-negative value is
published unchanged. -/
theorem C9_timeout_clamp (cfg : Config) (state : ClusterState) (env : Env)
    (route : Route) (inst : Grafana)
    (h1 : env.successRefetch = Except.ok inst)
    (h2 : env.successUpdateResult = none)
    (hroute : state.grafanaRoute = some route) :
    (∀ (cr : Grafana) (t : Int),
      cr.spec.client = some { preferService := false, timeoutSeconds := some t } →
      (manageSuccess cfg cr state env).log.published.map ControllerState.clientTimeout
        = [if t < 0 then DefaultClientTimeoutSeconds else t]) ∧
    (∀ cr : Grafana, cr.spec.client = none →
      (manageSuccess cfg cr state env).log.published.map ControllerState.clientTimeout
        = [DefaultClientTimeoutSeconds]) ∧
    (∀ cr : Grafana,
      cr.spec.client = some { preferService := false, timeoutSeconds := none } →
      (manageSuccess cfg cr state env).log.published.map ControllerState.clientTimeout
        = [DefaultClientTimeoutSeconds]) := by
  refine ⟨?_, ?_, ?_⟩
  · intro cr t hc
    have hurl : ∀ st : GrafanaStatus,
        getGrafanaAdminUrl { spec := cr.spec, status := st } state
          = Except.ok ("https://" ++ route.host) := by
      intro st
      simp [getGrafanaAdminUrl, hroute, hc]
    cases hd : cfg.dashboards <;>
      (simp only [manageSuccess, h1, h2, hd]
       split <;> split <;> simp_all [hurl, hc, CycleOutcome.withPriorLog])
  · intro cr hc
    have hurl : ∀ st : GrafanaStatus,
        getGrafanaAdminUrl { spec := cr.spec, status := st } state
          = Except.ok ("https://" ++ route.host) := by
      intro st
      simp [getGrafanaAdminUrl, hroute, hc]
    cases hd : cfg.dashboards <;>
      (simp only [manageSuccess, h1, h2, hd]
       split <;> split <;> simp_all [hurl, hc, CycleOutcome.withPriorLog])
  · intro cr hc
    have hurl : ∀ st : GrafanaStatus,
        getGrafanaAdminUrl { spec := cr.spec, status := st } state
          = Except.ok ("https://" ++ route.host) := by
      intro st
      simp [getGrafanaAdminUrl, hroute, hc]
    cases hd : cfg.dashboards <;>
      (simp only [manageSuccess, h1, h2, hd]
       split <;> split <;> simp_all [hurl, hc, CycleOutcome.withPriorLog])

/-- Closed witness for `C9_timeout_clamp`: `TimeoutSeconds = -5`
publishes the default 5. -/
theorem C9_timeout_clamp_witness :
    (manageSuccess {}
      { spec := { exSpec with
          client := some { preferService := false, timeoutSeconds := some (-5) } },
        status := exStatus }
      exStateRoute exEnv).log.published.map ControllerState.clientTimeout = [5] := by
  have h := (C9_timeout_clamp {} exStateRoute exEnv
    { host := "grafana.example.com" } exGrafana rfl rfl rfl).1
    { spec := { exSpec with
        client := some { preferService := false, timeoutSeconds := some (-5) } },
      status := exStatus } (-5) rfl
  simpa [DefaultClientTimeoutSeconds] using h

/-- An environment where the state read fails and the error-path status
write hits an optimistic-concurrency conflict. -/
def exEnvReadFailConflict : Env :=
  { exEnv with readStateResult := .error "read boom",
               errorUpdateResult := some UpdateErr.conflict }

/-- An environment where the initial fetch reports not-found. -/
def exEnvNotFound : Env := { exEnv with getResult := .error GetErr.notFound }

/-- An environment where the success-path status write hits an
optimistic-concurrency conflict (the subsequent error path succeeds). -/
def exEnvSuccessConflict : Env :=
  { exEnv with successUpdateResult := some UpdateErr.conflict }

/-- An environment where the error-path status write hits an
optimistic-concurrency conflict. -/
def exEnvErrConflict : Env := { exEnv with errorUpdateResult := some UpdateErr.conflict }

/-- An environment whose cluster state exposes no route, ingress or
service, so that endpoint resolution fails after the status update. -/
def exEnvNoEndpoint : Env := { exEnv with readStateResult := .ok exStateEmpty }

/-- **C1 counterexample**: a cycle whose state read fails and whose
error-path status write hits a conflict returns a nil error but the
zero requeue delay, publishes nothing and invalidates nothing — the
claim that every error-path cycle invalidates the cache, publishes
`Ready=false` and returns the fixed requeue delay is false. -/
theorem C1_conflict_skips_error_tail :
    (Reconcile {} exEnvReadFailConflict).err = none ∧
    (Reconcile {} exEnvReadFailConflict).result.requeueAfter ≠ RequeueDelay ∧
    (Reconcile {} exEnvReadFailConflict).log.published = [] ∧
    (Reconcile {} exEnvReadFailConflict).config.dashboardsInvalidated = false := by
  decide

/-- **C1 amended**: when the error-path re-fetch succeeds and any issued
status write succeeds, the error path persists phase `Failing` with the
error message, invalidates cached dashboard state, publishes
`ControllerState{Ready:false}` and returns the fixed requeue delay with
a nil error. -/
theorem C1_error_path_amended (cfg : Config) (cr : Grafana) (issue : String) (env : Env)
    (inst : Grafana)
    (h1 : env.errorRefetch = Except.ok inst)
    (h2 : env.errorUpdateResult = none) :
    (manageError cfg cr issue env).err = none ∧
    (manageError cfg cr issue env).result.requeueAfter = RequeueDelay ∧
    (manageError cfg cr issue env).persistedStatus =
      some { cr.status with phase := Phase.failing, message := issue } ∧
    (manageError cfg cr issue env).config.dashboardsInvalidated = true ∧
    (manageError cfg cr issue env).log.published = [{ grafanaReady := false }] := by
  simp only [manageError, h1, h2]
  split <;> simp_all [Config.invalidateDashboards]

/-- Closed witness for `C1_error_path_amended`. -/
theorem C1_error_path_amended_witness :
    (manageError {} exGrafana "boom" exEnv).err = none ∧
    (manageError {} exGrafana "boom" exEnv).result.requeueAfter = RequeueDelay ∧
    (manageError {} exGrafana "boom" exEnv).persistedStatus =
      some { exGrafana.status with phase := Phase.failing, message := "boom" } ∧
    (manageError {} exGrafana "boom" exEnv).config.dashboardsInvalidated = true ∧
    (manageError {} exGrafana "boom" exEnv).log.published = [{ grafanaReady := false }] :=
  C1_error_path_amended {} exGrafana "boom" exEnv exGrafana rfl rfl

/-- **C3 counterexample**: a conflict on the success-path status write
is not swallowed — the cycle records a `ProcessingError` warning event
with the conflict message and persists phase `Failing`, i.e. it is
treated as a reconciliation failure. -/
theorem C3_success_conflict_not_swallowed :
    (Reconcile {} exEnvSuccessConflict).log.warningEvents = ["conflict"] ∧
    (Reconcile {} exEnvSuccessConflict).persistedStatus.map GrafanaStatus.phase =
      some Phase.failing := by
  decide

/-- **C3 amended**: a conflict on the *error-path* status write is
swallowed — nil error, exactly one (failed) write attempt with no retry
— but the function then returns the zero result without publishing; a
conflict on the success-path write is instead routed to the error path
as a reconciliation failure. -/
theorem C3_conflict_amended (cfg : Config) (cr : Grafana) (issue : String) (env : Env)
    (inst : Grafana)
    (h1 : env.errorRefetch = Except.ok inst)
    (h2 : env.errorUpdateResult = some UpdateErr.conflict)
    (h3 : ({ cr.status with phase := Phase.failing, message := issue } : GrafanaStatus)
      ≠ inst.status) :
    (manageError cfg cr issue env).err = none ∧
    (manageError cfg cr issue env).log.statusWrites.map Prod.snd = [false] ∧
    (manageError cfg cr issue env).result.requeueAfter = 0 ∧
    (manageError cfg cr issue env).log.published = [] := by
  simp only [manageError, h1, h2]
  split <;> simp_all

/-- Closed witness for `C3_conflict_amended`. -/
theorem C3_conflict_amended_witness :
    (manageError {} exGrafana "boom" exEnvErrConflict).err = none ∧
    (manageError {} exGrafana "boom" exEnvErrConflict).log.statusWrites.map Prod.snd
      = [false] ∧
    (manageError {} exGrafana "boom" exEnvErrConflict).result.requeueAfter = 0 ∧
    (manageError {} exGrafana "boom" exEnvErrConflict).log.published = [] :=
  C3_conflict_amended {} exGrafana "boom" exEnvErrConflict exGrafana rfl rfl (by decide)

/-- **C5 counterexample**: the not-found teardown path returns the zero
`reconcile.Result`, not the fixed requeue delay the claim asserts. -/
theorem C5_teardown_zero_result :
    (Reconcile {} exEnvNotFound).result.requeueAfter ≠ RequeueDelay := by
  decide

/-- **C5 amended**: when the initial fetch reports not-found, the cycle
removes the label-selector entry from the process config store, marks
cached dashboard state invalid, publishes
`ControllerState{Ready:false}` and returns success with a nil error and
the zero result (no requeue delay is scheduled). -/
theorem C5_teardown_amended (cfg : Config) (env : Env)
    (h : env.getResult = Except.error GetErr.notFound) :
    (Reconcile cfg env).err = none ∧
    (Reconcile cfg env).config.dashboardLabelSelectorItem = none ∧
    (Reconcile cfg env).config.dashboardsInvalidated = true ∧
    (Reconcile cfg env).log.published = [{ grafanaReady := false }] ∧
    (Reconcile cfg env).result.requeueAfter = 0 := by
  simp [Reconcile, h, Config.removeDashboardLabelSelector, Config.cleanup]

/-- Closed witness for `C5_teardown_amended`. -/
theorem C5_teardown_amended_witness :
    (Reconcile {} exEnvNotFound).err = none ∧
    (Reconcile {} exEnvNotFound).config.dashboardLabelSelectorItem = none ∧
    (Reconcile {} exEnvNotFound).config.dashboardsInvalidated = true ∧
    (Reconcile {} exEnvNotFound).log.published = [{ grafanaReady := false }] ∧
    (Reconcile {} exEnvNotFound).result.requeueAfter = 0 :=
  C5_teardown_amended {} exEnvNotFound rfl

/-- **C8 counterexample**: a cycle whose endpoint resolution fails first
persists phase `Reconciling` (the success-path status write precedes
resolution) and then persists phase `Failing` — refuting the claim that
no single cycle persists `Reconciling` and then `Failing`. -/
theorem C8_reconciling_then_failing :
    ((Reconcile {} exEnvNoEndpoint).log.statusWrites.filter Prod.snd).map
        (fun w => w.1.phase) = [Phase.reconciling, Phase.failing] := by
  decide

/-- **C8 amended**: an error during the cycle forces the *final*
persisted phase to `Failing`, but the `Reconciling` status write happens
before endpoint resolution, so a cycle whose endpoint resolution fails
persists `Reconciling` first and `Failing` second. -/
theorem C8_write_order_amended (cfg : Config) (cr : Grafana) (state : ClusterState)
    (env : Env) (inst inst2 : Grafana) (d : DashMap)
    (hsync : cfg.grafanaDashboardsSynced = false)
    (hd : cfg.dashboards = some d)
    (hroute : state.grafanaRoute = none)
    (hing : state.grafanaIngress = none)
    (hsvc : state.grafanaService = none)
    (h1 : env.successRefetch = Except.ok inst)
    (hd1 : ({ cr.status with phase := Phase.reconciling, message := "success" } :
      GrafanaStatus) ≠ inst.status)
    (h2 : env.successUpdateResult = none)
    (h3 : env.errorRefetch = Except.ok inst2)
    (hd2 : ({ cr.status with
      phase := Phase.failing
      message := "failed to find admin url" } : GrafanaStatus) ≠ inst2.status)
    (h4 : env.errorUpdateResult = none) :
    ((manageSuccess cfg cr state env).log.statusWrites.filter Prod.snd).map
        (fun w => w.1.phase) = [Phase.reconciling, Phase.failing] ∧
    (manageSuccess cfg cr state env).persistedStatus.map GrafanaStatus.phase =
      some Phase.failing := by
  have hurl : ∀ st : GrafanaStatus,
      getGrafanaAdminUrl { spec := cr.spec, status := st } state
        = Except.error "failed to find admin url" :=
    fun _ => getGrafanaAdminUrl_nothing _ state hroute hing hsvc
  simp [manageSuccess, manageError, Config.getConfigBool, hsync, hd, h1, h2, h3, h4,
    hurl, hd1, hd2, CycleOutcome.withPriorLog, Config.invalidateDashboards]

/-- Closed witness for `C8_write_order_amended`. -/
theorem C8_write_order_amended_witness :
    ((manageSuccess { dashboards := some [] } exGrafana exStateEmpty
        exEnv).log.statusWrites.filter Prod.snd).map (fun w => w.1.phase)
      = [Phase.reconciling, Phase.failing] ∧
    (manageSuccess { dashboards := some [] } exGrafana exStateEmpty
        exEnv).persistedStatus.map GrafanaStatus.phase = some Phase.failing :=
  C8_write_order_amended { dashboards := some [] } exGrafana exStateEmpty exEnv
    exGrafana exGrafana [] rfl rfl rfl rfl rfl rfl (by decide) rfl rfl (by decide) rfl

end GrafanaOp
